import Mathlib

/-
  Verification development for the Wireless Communication System node
  (main.py together with Dependencies/LCD, Dependencies/GPIO and
  Dependencies/errors). Each Python method relevant to the checked
  properties is shallowly embedded as a pure Lean function over explicit
  state, and the properties are proved or refuted about these functions.
-/

namespace WCSNode

/-- State of the readiness gate implemented by Node.uptodate_check: the
stored server clock (oldServerTime, None when the initial read failed),
whether the uptodate future is currently done, and a generation counter
that increases each time a fresh pending future is installed for future
waiters to block on. -/
structure GateState where
  oldServerTime : Option Nat
  ready : Bool
  generation : Nat
  deriving DecidableEq, Repr

/-- One iteration of the while-loop body of Node.uptodate_check, fed the
value read from the server (None models a missing read). When the read
is present and differs from the stored clock the future is resolved
(made done) and the clock stored; otherwise, if the future is currently
done, a new pending future replaces it. -/
def uptodate_check_step (s : GateState) (newServerTime : Option Nat) : GateState :=
  if newServerTime ≠ none ∧ newServerTime ≠ s.oldServerTime then
    { s with oldServerTime := newServerTime, ready := true }
  else if s.ready then
    { s with ready := false, generation := s.generation + 1 }
  else
    s

/-- Iterating the readiness loop over a list of reads. -/
def uptodate_check_run (s : GateState) (reads : List (Option Nat)) : GateState :=
  reads.foldl uptodate_check_step s

/-- State of LCDDisplay: whether hardware setup found a responding
adapter address, the stored message, and the latched priority. -/
structure LCDDisplay where
  isSetup : Bool
  message : String
  currentPriority : Int
  deriving DecidableEq, Repr

/-- LCDDisplay.change_priority: unconditionally install a new latched
priority. -/
def LCDDisplay.change_priority (lcd : LCDDisplay) (priority : Int) : LCDDisplay :=
  { lcd with currentPriority := priority }

/-- LCDDisplay.display_text: when the display is set up and the given
priority is at least the latched one, store the first 32 characters of
the text and raise the latch to the given priority; otherwise do
nothing at all (the guard short-circuits on isSetup, so no hardware
access happens when setup failed). -/
def LCDDisplay.display_text (lcd : LCDDisplay) (text : String) (priority : Int) : LCDDisplay :=
  if lcd.isSetup = true ∧ priority ≥ lcd.currentPriority then
    ({ lcd with message := text.take 32 }).change_priority priority
  else
    lcd

/-- The Python default value of the priority parameter of
LCDDisplay.display_text. -/
def displayTextDefaultPriority : Int := 1

/-- The branch of Node.update_display that runs before the setup tasks
are done: it formats the MAC message and calls display_text without an
explicit priority, hence with the default one. -/
def update_display_presetup (mac : String) (lcd : LCDDisplay) : LCDDisplay :=
  lcd.display_text ("MAC Addr: " ++ mac) displayTextDefaultPriority

/-- ErrorStorage.update acting on the in-memory error list: the current
traceback is appended only when it is not already present. -/
def ErrorStorage.update (errors : List String) (trace : String) : List String :=
  if trace ∈ errors then errors else errors ++ [trace]

/-- The fields of the cue series tracked by Node.get_cue_series. -/
structure CueSeries where
  cueNumber : String
  cueState : String
  action : String
  deriving DecidableEq, Repr

/-- The fields of the node series built by Node.update_node_series. -/
structure NodeSeries where
  cueNumber : String
  cueState : String
  action : String
  nodeState : String
  nodeNumber : String
  timestamp : Option Nat
  deriving DecidableEq, Repr

/-- Node.get_node_series_value: look an index up in the node series,
returning the sentinel on a KeyError (empty series or unknown index). -/
def get_node_series_value (nodeSeries : Option NodeSeries) (index : String) : String :=
  match nodeSeries with
  | none => "None"
  | some ns =>
    if index = "Cue Number" then ns.cueNumber
    else if index = "Cue State" then ns.cueState
    else if index = "Action" then ns.action
    else if index = "Node State" then ns.nodeState
    else if index = "Node Number" then ns.nodeNumber
    else "None"

/-- Association-list lookup used to model dictionary access. -/
def lookupStr (d : List (String × String)) (key : String) : Option String :=
  (d.find? (fun p => p.1 == key)).map Prod.snd

/-- A Python exception relevant to the embedded methods. -/
inductive PyExc where
  | attributeError
  deriving DecidableEq, Repr

/-- Node.get_attribute_value: before Node.update_attributes has ever
succeeded, the attributes dictionary does not exist, so the subscript
raises AttributeError, which the method does not catch (it catches only
KeyError); once the dictionary exists, a missing key (KeyError) yields
the sentinel. -/
def get_attribute_value (attributes_dict : Option (List (String × String))) (key : String) :
    Except PyExc String :=
  match attributes_dict with
  | none => Except.error PyExc.attributeError
  | some d =>
    match lookupStr d key with
    | none => Except.ok "None"
    | some v => Except.ok v

/-- The value Node.get_attribute_value returns once the attributes
dictionary is populated. -/
def attribute_value (attributes_dict : List (String × String)) (key : String) : String :=
  (lookupStr attributes_dict key).getD "None"

/-- The state dataframe fetched by Node.update_state_frame: rows indexed
by cue state, with an Initial Node State and a Final Node State column. -/
structure StateFrame where
  rows : List (String × String × String)
  deriving DecidableEq, Repr

/-- The pandas at-lookup of the Initial Node State column; None models a
KeyError, which would propagate out of the state machine. -/
def StateFrame.atInitial (f : StateFrame) (cueState : String) : Option String :=
  (f.rows.find? (fun r => r.1 == cueState)).map (fun r => r.2.1)

/-- The pandas at-lookup of the Final Node State column. -/
def StateFrame.atFinal (f : StateFrame) (cueState : String) : Option String :=
  (f.rows.find? (fun r => r.1 == cueState)).map (fun r => r.2.2)

/-- The shared state touched by one cycle of Node.update_node_series:
the node series, the two transition flags, the sticky pressed flag of
the GPIO button, and the stored server clock used for the timestamp. -/
structure NodeMachineState where
  nodeSeries : Option NodeSeries
  changeState : Bool
  initialState : Bool
  buttonPressed : Bool
  oldServerTime : Option Nat
  deriving DecidableEq, Repr

/-- Which branch of the update_node_series conditional fired. -/
inductive Branch where
  | noCue
  | newCue
  | finalPhase
  | noop
  deriving DecidableEq, Repr

/-- Result of one cycle: the new shared state, the branch taken, and the
record sent to the server when the updated flag was set. -/
structure CycleResult where
  state : NodeMachineState
  branch : Branch
  published : Option NodeSeries
  deriving DecidableEq, Repr

/-- One iteration of the while-loop body of Node.update_node_series,
run after the setup tasks, so the attributes dictionary exists. A cue
state missing from the state dataframe is a KeyError from the pandas
at-lookup, which propagates (modelled as error). The inner none case of
the final-phase branch is unreachable, because an empty node series is
caught by the first branch. -/
def update_node_series_cycle (stateFrame : StateFrame)
    (attributes_dict : List (String × String)) (cueSeries : Option CueSeries)
    (s : NodeMachineState) : Except Unit CycleResult :=
  match cueSeries with
  | none => Except.ok ⟨s, Branch.noCue, none⟩
  | some c =>
    if s.nodeSeries.isNone ∨ c.cueNumber ≠ get_node_series_value s.nodeSeries "Cue Number"
        ∨ c.cueState ≠ get_node_series_value s.nodeSeries "Cue State" then
      match stateFrame.atInitial c.cueState with
      | none => Except.error ()
      | some initState =>
        let ns : NodeSeries :=
          { cueNumber := c.cueNumber, cueState := c.cueState, action := c.action,
            nodeState := initState, nodeNumber := attribute_value attributes_dict "Node Number",
            timestamp := s.oldServerTime }
        let s2 : NodeMachineState :=
          { s with nodeSeries := some ns, changeState := false, initialState := true, buttonPressed := false }
        Except.ok ⟨s2, Branch.newCue, some ns⟩
    else if s.changeState = true ∧ s.initialState = true then
      match s.nodeSeries with
      | none => Except.ok ⟨s, Branch.noop, none⟩
      | some ns0 =>
        match stateFrame.atFinal ns0.cueState with
        | none => Except.error ()
        | some finState =>
          let ns : NodeSeries := { ns0 with nodeState := finState, timestamp := s.oldServerTime }
          Except.ok ⟨{ s with nodeSeries := some ns, initialState := false },
                     Branch.finalPhase, some ns⟩
    else
      Except.ok ⟨s, Branch.noop, none⟩

/-- Run several cycles of the node state machine; before each cycle the
button task may raise the changeState flag (Node.get_button_input only
ever raises it, never lowers it, and never touches initialState). -/
def update_node_series_run (stateFrame : StateFrame)
    (attributes_dict : List (String × String)) :
    NodeMachineState → List (Bool × Option CueSeries) →
    Except Unit (NodeMachineState × List Branch)
  | s, [] => Except.ok (s, [])
  | s, (press, cue) :: rest =>
    let s1 := { s with changeState := s.changeState || press }
    match update_node_series_cycle stateFrame attributes_dict cue s1 with
    | Except.error e => Except.error e
    | Except.ok r =>
      match update_node_series_run stateFrame attributes_dict r.state rest with
      | Except.error e => Except.error e
      | Except.ok (s2, bs) => Except.ok (s2, r.branch :: bs)

/-- Number of final-phase firings in a list of branches. -/
def finalCount (bs : List Branch) : Nat :=
  bs.countP (fun b => b == Branch.finalPhase)

/-- The kind of screen task stored by GPIOManagement (the default task
ignores its argument). -/
inductive ScreenTaskKind where
  | defaultScreen
  | solidScreen
  | blinkScreen
  deriving DecidableEq, Repr

/-- The kind of button-LED task stored by GPIOManagement (the blinking
task ignores its argument). -/
inductive ButtonTaskKind where
  | buttonState
  | blinkButton
  deriving DecidableEq, Repr

/-- The task state of GPIOManagement: the connected flag, the stored
screen task and its argument, and the stored button task and its
argument. -/
structure GPIOManagement where
  isConnected : Bool
  screenTask : ScreenTaskKind
  screenArg : String
  buttonTask : ButtonTaskKind
  buttonArg : Bool
  deriving DecidableEq, Repr

/-- GPIOManagement constructor defaults: not connected, the default
screen task with the default color as argument, the button task off. -/
def GPIOManagement.start (defaultColor : String) : GPIOManagement :=
  ⟨false, ScreenTaskKind.defaultScreen, defaultColor, ButtonTaskKind.buttonState, false⟩

/-- GPIOManagement.connected. -/
def GPIOManagement.connected (g : GPIOManagement) (state : Bool) : GPIOManagement :=
  { g with isConnected := state }

/-- GPIOManagement.button_state. -/
def GPIOManagement.button_state (g : GPIOManagement) (state : Bool) : GPIOManagement :=
  { g with buttonTask := ButtonTaskKind.buttonState, buttonArg := state }

/-- GPIOManagement.blink_button (the stored argument is unchanged and
ignored by the blinking task). -/
def GPIOManagement.blink_button (g : GPIOManagement) : GPIOManagement :=
  { g with buttonTask := ButtonTaskKind.blinkButton }

/-- GPIOManagement.default_screen (the stored argument is unchanged and
ignored by the default task). -/
def GPIOManagement.default_screen (g : GPIOManagement) : GPIOManagement :=
  { g with screenTask := ScreenTaskKind.defaultScreen }

/-- GPIOManagement.solid_screen. -/
def GPIOManagement.solid_screen (g : GPIOManagement) (hexString : String) : GPIOManagement :=
  { g with screenTask := ScreenTaskKind.solidScreen, screenArg := hexString }

/-- GPIOManagement.blink_screen. -/
def GPIOManagement.blink_screen (g : GPIOManagement) (hexString : String) : GPIOManagement :=
  { g with screenTask := ScreenTaskKind.blinkScreen, screenArg := hexString }

/-- GPIOManagement.standby: solid yellow. -/
def GPIOManagement.standby (g : GPIOManagement) : GPIOManagement :=
  g.solid_screen "FFFF00"

/-- GPIOManagement.multiple_standbys: blinking yellow. -/
def GPIOManagement.multiple_standbys (g : GPIOManagement) : GPIOManagement :=
  g.blink_screen "FFFF00"

/-- GPIOManagement.go: solid green. -/
def GPIOManagement.go (g : GPIOManagement) : GPIOManagement :=
  g.solid_screen "00FF00"

/-- One iteration of the while-loop body of Node.update_LEDs. Note that
in the innermost branch (node state None, cue state neither Go nor
Standby nor Multiple Standbys) no screen task is installed. -/
def update_LEDs_cycle (uptodateDone justPressed : Bool) (nodeSeries : Option NodeSeries)
    (g0 : GPIOManagement) : GPIOManagement :=
  let g := g0.connected uptodateDone
  if uptodateDone then
    let cueState := get_node_series_value nodeSeries "Cue State"
    let nodeState := get_node_series_value nodeSeries "Node State"
    if nodeState ≠ "None" then
      let g1 := if cueState = "Go" ∧ justPressed then g.button_state true
                else g.button_state false
      g1.default_screen
    else if cueState = "Go" then
      (g.go).blink_button
    else
      let g1 := g.button_state false
      if cueState = "Standby" then g1.standby
      else if cueState = "Multiple Standbys" then g1.multiple_standbys
      else g1
  else g

/-- The physical button-light behavior produced by one invocation of
GPIOManagement.run_LED_tasks. -/
inductive ButtonLight where
  | off
  | solidOn
  | blinking
  deriving DecidableEq, Repr

/-- The physical indicator behavior produced by one invocation of
GPIOManagement.run_LED_tasks. -/
inductive Indicator where
  | defaultColor
  | solidColor (hexString : String)
  | blinkColor (hexString : String)
  deriving DecidableEq, Repr

/-- The button half of GPIOManagement.run_LED_tasks: when disconnected
the button LED is forced off, otherwise the stored button task runs on
the stored argument. -/
def GPIOManagement.run_button (g : GPIOManagement) : ButtonLight :=
  if g.isConnected then
    match g.buttonTask with
    | ButtonTaskKind.buttonState => if g.buttonArg then ButtonLight.solidOn else ButtonLight.off
    | ButtonTaskKind.blinkButton => ButtonLight.blinking
  else ButtonLight.off

/-- The screen half of GPIOManagement.run_LED_tasks: when disconnected
the screen blinks red, otherwise the stored screen task runs on the
stored argument. -/
def GPIOManagement.run_screen (g : GPIOManagement) : Indicator :=
  if g.isConnected then
    match g.screenTask with
    | ScreenTaskKind.defaultScreen => Indicator.defaultColor
    | ScreenTaskKind.solidScreen => Indicator.solidColor g.screenArg
    | ScreenTaskKind.blinkScreen => Indicator.blinkColor g.screenArg
  else Indicator.blinkColor "FF0000"

/-- The indicator currently stored in the screen-task slot, ignoring
connectivity. -/
def GPIOManagement.storedIndicator (g : GPIOManagement) : Indicator :=
  match g.screenTask with
  | ScreenTaskKind.defaultScreen => Indicator.defaultColor
  | ScreenTaskKind.solidScreen => Indicator.solidColor g.screenArg
  | ScreenTaskKind.blinkScreen => Indicator.blinkColor g.screenArg

/-- The button-light column of the decision table of section 4.6 of the
specification, written from the words of the specification, to be
compared with the code embedding update_LEDs_cycle. This column is a
pure function of the four inputs. -/
def specButtonLight (conn : Bool) (cueState nodeState : String) (justPressed : Bool) :
    ButtonLight :=
  if conn = false then ButtonLight.off
  else if nodeState ≠ "None" then
    (if cueState = "Go" ∧ justPressed then ButtonLight.solidOn else ButtonLight.off)
  else if cueState = "Go" then ButtonLight.blinking
  else ButtonLight.off

/-- The indicator column of the decision table, written from the words
of the specification except for the one row the code refutes: in the
row (node state None, other cue state) the previous stored indicator is
kept instead of Default. -/
def specIndicator (conn : Bool) (cueState nodeState : String) (prev : Indicator) : Indicator :=
  if conn = false then Indicator.blinkColor "FF0000"
  else if nodeState ≠ "None" then Indicator.defaultColor
  else if cueState = "Go" then Indicator.solidColor "00FF00"
  else if cueState = "Standby" then Indicator.solidColor "FFFF00"
  else if cueState = "Multiple Standbys" then Indicator.blinkColor "FFFF00"
  else prev

/-- One poll of Node.update_attributes: the full attributes frame read
from the server (None when absent), modelled as rows indexed by MAC
address; a None frame or a missing MAC row is a lookup failure
(AttributeError or KeyError, both caught by the retry loop). -/
def attributes_lookup (mac : String)
    (allAttributes : Option (List (String × List (String × String)))) :
    Option (List (String × String)) :=
  match allAttributes with
  | none => none
  | some frame => (frame.find? (fun r => r.1 == mac)).map Prod.snd

/-- The retry loop of Node.update_attributes over a list of polled
frames: each failed lookup sleeps 5 seconds and retries; the first
success is cached and ends the loop for good. Returns the cached
dictionary and the list of sleeps performed, or none when the polls are
exhausted without success (the loop is still running). -/
def update_attributes (mac : String) :
    List (Option (List (String × List (String × String)))) →
    Option (List (String × String) × List ℚ)
  | [] => none
  | all :: rest =>
    match attributes_lookup mac all with
    | some d => some (d, [])
    | none =>
      match update_attributes mac rest with
      | none => none
      | some (d, waits) => some (d, (5 : ℚ) :: waits)

/-- The retry loop of Node.update_state_frame over a list of polled
frames: a None frame sleeps 2.5 seconds and retries; the first non-None
frame is cached and ends the loop for good. -/
def update_state_frame :
    List (Option StateFrame) → Option (StateFrame × List ℚ)
  | [] => none
  | frame :: rest =>
    match frame with
    | some f => some (f, [])
    | none =>
      match update_state_frame rest with
      | none => none
      | some (f, waits) => some (f, (5 / 2 : ℚ) :: waits)

/-- Helper: the readiness flag after one poll is exactly the condition
that the poll read a present value differing from the stored clock. -/
theorem uptodate_step_ready (s : GateState) (r : Option Nat) :
    (uptodate_check_step s r).ready = true ↔ (r ≠ none ∧ r ≠ s.oldServerTime) := by
  unfold uptodate_check_step
  by_cases hc : r ≠ none ∧ r ≠ s.oldServerTime
  · rw [if_pos hc]
    simpa using hc
  · rw [if_neg hc]
    have hready : (if s.ready = true then
        { s with ready := false, generation := s.generation + 1 } else s).ready = false := by
      split
      · rfl
      · rename_i hr
        simpa using hr
    rw [hready]
    simp [hc]

/-- C1: readiness gate step invariant. After any sequence of clock reads
followed by one more read, the readiness flag is true iff that last read
was present and differed from the previously stored clock; and a single
poll that observed no change (including a None read) while the flag was
ready makes the flag not-ready and installs a fresh generation. -/
theorem uptodate_check_invariant :
    (∀ (s : GateState) (reads : List (Option Nat)) (r : Option Nat),
      ((uptodate_check_run s (reads ++ [r])).ready = true ↔
        (r ≠ none ∧ r ≠ (uptodate_check_run s reads).oldServerTime))) ∧
    (∀ (s : GateState) (r : Option Nat),
      ¬(r ≠ none ∧ r ≠ s.oldServerTime) → s.ready = true →
        (uptodate_check_step s r).ready = false ∧
        (uptodate_check_step s r).generation = s.generation + 1) := by
  constructor
  · intro s reads r
    have h : uptodate_check_run s (reads ++ [r]) =
        uptodate_check_step (uptodate_check_run s reads) r := by
      simp [uptodate_check_run, List.foldl_append]
    rw [h]
    exact uptodate_step_ready _ _
  · intro s r hnc hr
    unfold uptodate_check_step
    rw [if_neg hnc, if_pos hr]
    exact ⟨rfl, rfl⟩

/-- Witness for C1 at a concrete stale read taken while ready. -/
theorem uptodate_check_invariant_witness :
    (uptodate_check_step ⟨some 3, true, 0⟩ none).ready = false ∧
    (uptodate_check_step ⟨some 3, true, 0⟩ none).generation = 1 :=
  uptodate_check_invariant.2 ⟨some 3, true, 0⟩ none (by decide) rfl

/-- C5: display priority latch. A message is shown and stored iff the
display was set up and its priority is at least the latched one, and
showing it raises the latch to that priority; in particular once the
latch is at 2 every priority-1 call leaves the state unchanged, until
change_priority installs a value at most 1, after which a priority-1
message is shown again. -/
theorem display_text_priority_latch :
    (∀ (lcd : LCDDisplay) (t : String) (p : Int), lcd.isSetup = true →
       lcd.currentPriority ≤ p → lcd.display_text t p = ⟨true, t.take 32, p⟩) ∧
    (∀ (lcd : LCDDisplay) (t : String) (p : Int),
       ¬(lcd.isSetup = true ∧ lcd.currentPriority ≤ p) → lcd.display_text t p = lcd) ∧
    (∀ (lcd : LCDDisplay) (t : String), lcd.currentPriority = 2 →
       lcd.display_text t 1 = lcd) ∧
    (∀ (lcd : LCDDisplay) (t : String) (q : Int), q ≤ 1 → lcd.isSetup = true →
       (lcd.change_priority q).display_text t 1 = ⟨true, t.take 32, 1⟩) := by
  refine ⟨?_, ?_, ?_, ?_⟩
  · intro lcd t p hs hp
    rcases lcd with ⟨su, m, pr⟩
    simp_all [LCDDisplay.display_text, LCDDisplay.change_priority, ge_iff_le]
  · intro lcd t p hn
    rcases lcd with ⟨su, m, pr⟩
    simp_all [LCDDisplay.display_text, ge_iff_le]
  · intro lcd t hp
    rcases lcd with ⟨su, m, pr⟩
    subst hp
    simp [LCDDisplay.display_text, ge_iff_le]
  · intro lcd t q hq hs
    rcases lcd with ⟨su, m, pr⟩
    simp_all [LCDDisplay.display_text, LCDDisplay.change_priority, ge_iff_le]

/-- Witness for C5: a priority-1 call after a latched priority 2 is a
no-op. -/
theorem display_text_priority_latch_witness :
    LCDDisplay.display_text ⟨true, "An error has occurred: check log", 2⟩ "Cue 12: Hold" 1 =
      ⟨true, "An error has occurred: check log", 2⟩ :=
  display_text_priority_latch.2.2.1 ⟨true, "An error has occurred: check log", 2⟩
    "Cue 12: Hold" rfl

/-- C6 counterexample: the MAC message is submitted with the default
priority of display_text, which is 1 and not 0, and showing it on a
fresh display raises the latch to 1. -/
theorem update_display_presetup_counterexample :
    displayTextDefaultPriority ≠ 0 ∧
    (update_display_presetup "b8:27:eb" ⟨true, "", 0⟩).currentPriority = 1 := by
  constructor
  · decide
  · rfl

/-- C6 amended: the pre-setup display cycle submits the MAC message at
priority 1 (the display_text default), so it is eligible whenever the
latch is at most 1 — in particular against the initial latch 0 — and
showing it raises the latch to 1. -/
theorem update_display_presetup_priority (mac : String) (lcd : LCDDisplay)
    (hs : lcd.isSetup = true) (hp : lcd.currentPriority ≤ 1) :
    update_display_presetup mac lcd = ⟨true, ("MAC Addr: " ++ mac).take 32, 1⟩ := by
  rcases lcd with ⟨su, m, pr⟩
  simp_all [update_display_presetup, LCDDisplay.display_text, LCDDisplay.change_priority,
    displayTextDefaultPriority, ge_iff_le]

/-- Witness for C6 amended at a concrete display state. -/
theorem update_display_presetup_priority_witness :
    update_display_presetup "b8:27:eb" ⟨true, "x", 0⟩ =
      ⟨true, ("MAC Addr: " ++ "b8:27:eb").take 32, 1⟩ :=
  update_display_presetup_priority "b8:27:eb" ⟨true, "x", 0⟩ rfl (by decide)

/-- C8 counterexample: an attribute read made before the attributes
dictionary exists raises AttributeError (uncaught, since only KeyError
is caught) instead of returning the sentinel. -/
theorem get_attribute_value_before_setup :
    get_attribute_value none "Node Number" = Except.error PyExc.attributeError := rfl

/-- C8 amended: node-series reads on the unpopulated (empty) series
return the sentinel for every index and never raise; attribute reads
return the sentinel for keys missing from a populated dictionary; but
an attribute read made before the dictionary exists raises
AttributeError (in the program, attribute reads only happen after the
setup tasks are done). -/
theorem sentinel_reads :
    (∀ index, get_node_series_value none index = "None") ∧
    (∀ d key, lookupStr d key = none → get_attribute_value (some d) key = Except.ok "None") ∧
    (∀ key, get_attribute_value none key = Except.error PyExc.attributeError) := by
  refine ⟨fun index => rfl, ?_, fun key => rfl⟩
  intro d key h
  simp [get_attribute_value, h]

/-- Witness for C8 amended: a missing key on a populated dictionary
yields the sentinel. -/
theorem sentinel_reads_witness :
    get_attribute_value (some [("Node Number", "2")]) "Node Name" = Except.ok "None" :=
  sentinel_reads.2.1 [("Node Number", "2")] "Node Name" rfl

/-- C9: error-log deduplication idempotence. Updating twice with the
same traceback equals updating once, and a traceback already present is
never appended again. -/
theorem errorStorage_update_idempotent :
    (∀ (errors : List String) (trace : String),
       ErrorStorage.update (ErrorStorage.update errors trace) trace =
         ErrorStorage.update errors trace) ∧
    (∀ (errors : List String) (trace : String), trace ∈ errors →
       ErrorStorage.update errors trace = errors) := by
  constructor
  · intro errors trace
    by_cases h : trace ∈ errors
    · simp [ErrorStorage.update, h]
    · simp [ErrorStorage.update, h]
  · intro errors trace h
    simp [ErrorStorage.update, h]

/-- Witness for C9 at a concrete error list. -/
theorem errorStorage_update_idempotent_witness :
    ErrorStorage.update ["Traceback: ZeroDivisionError"] "Traceback: ZeroDivisionError" =
      ["Traceback: ZeroDivisionError"] :=
  errorStorage_update_idempotent.2 ["Traceback: ZeroDivisionError"]
    "Traceback: ZeroDivisionError" (by simp)

/-- C10: when LCD setup failed, display_text at any priority leaves the
stored message and the latched priority unchanged and touches no
hardware (the guard short-circuits on isSetup before any display
access). -/
theorem display_text_not_setup (lcd : LCDDisplay) (text : String) (priority : Int)
    (h : lcd.isSetup = false) : lcd.display_text text priority = lcd := by
  simp [LCDDisplay.display_text, h]

/-- Witness for C10: even the fatal-error message of the orchestrator
at priority 2 is silently dropped. -/
theorem display_text_not_setup_witness :
    LCDDisplay.display_text ⟨false, "", 0⟩ "An error has occurred: check log" 2 =
      ⟨false, "", 0⟩ :=
  display_text_not_setup ⟨false, "", 0⟩ "An error has occurred: check log" 2 rfl

/-- C2: new-cue identity rule. Whenever the tracked cue series is
non-empty and the node series is empty or differs from it on Cue Number
or Cue State, the cycle replaces the node series by a copy of the cue
series whose Node State is the Initial Node State of the new Cue State
in the state dataframe and whose Node Number comes from the attributes;
the changeState flag is cleared, the initialState flag set, the button
pressed flag cleared, and the new record is published. -/
theorem update_node_series_newCue (stateFrame : StateFrame)
    (attributes_dict : List (String × String)) (c : CueSeries) (s : NodeMachineState)
    (initState : String)
    (hcond : s.nodeSeries.isNone ∨ c.cueNumber ≠ get_node_series_value s.nodeSeries "Cue Number"
      ∨ c.cueState ≠ get_node_series_value s.nodeSeries "Cue State")
    (hinit : stateFrame.atInitial c.cueState = some initState) :
    update_node_series_cycle stateFrame attributes_dict (some c) s =
      Except.ok ⟨⟨some ⟨c.cueNumber, c.cueState, c.action, initState,
            attribute_value attributes_dict "Node Number", s.oldServerTime⟩,
          false, true, false, s.oldServerTime⟩,
        Branch.newCue,
        some ⟨c.cueNumber, c.cueState, c.action, initState,
          attribute_value attributes_dict "Node Number", s.oldServerTime⟩⟩ := by
  simp only [update_node_series_cycle]
  rw [if_pos hcond, hinit]

/-- Witness for C2 at a concrete arriving cue. -/
theorem update_node_series_newCue_witness :
    update_node_series_cycle ⟨[("Standby", "None", "Go")]⟩ [("Node Number", "2")]
        (some ⟨"12", "Standby", "Hold"⟩) ⟨none, true, false, true, some 7⟩ =
      Except.ok ⟨⟨some ⟨"12", "Standby", "Hold", "None", "2", some 7⟩, false, true, false, some 7⟩,
        Branch.newCue, some ⟨"12", "Standby", "Hold", "None", "2", some 7⟩⟩ := by
  have h := update_node_series_newCue ⟨[("Standby", "None", "Go")]⟩ [("Node Number", "2")]
    ⟨"12", "Standby", "Hold"⟩ ⟨none, true, false, true, some 7⟩ "None"
    (Or.inl (by decide)) (by decide)
  exact h.trans rfl

/-- Unfolding equation of the attributes loop on a cons cell. -/
theorem update_attributes_cons (mac : String)
    (all : Option (List (String × List (String × String))))
    (rest : List (Option (List (String × List (String × String))))) :
    update_attributes mac (all :: rest) =
      (match attributes_lookup mac all with
       | some d => some (d, [])
       | none =>
         match update_attributes mac rest with
         | none => none
         | some (d, waits) => some (d, (5 : ℚ) :: waits)) := rfl

/-- Unfolding equation of the state-frame loop on a cons cell. -/
theorem update_state_frame_cons (frame : Option StateFrame)
    (rest : List (Option StateFrame)) :
    update_state_frame (frame :: rest) =
      (match frame with
       | some f => some (f, [])
       | none =>
         match update_state_frame rest with
         | none => none
         | some (f, waits) => some (f, (5 / 2 : ℚ) :: waits)) := rfl

/-- Helper: full characterization of the attributes retry loop: every
sleep is 5 seconds, there is one sleep per failed poll before the first
success, and once a success is cached further polls change nothing. -/
theorem update_attributes_spec (mac : String) :
    ∀ (polls : List (Option (List (String × List (String × String)))))
      (d : List (String × String)) (waits : List ℚ),
      update_attributes mac polls = some (d, waits) →
      (∀ w ∈ waits, w = (5 : ℚ)) ∧
      waits.length = (polls.takeWhile (fun a => (attributes_lookup mac a).isNone)).length ∧
      ∀ extra, update_attributes mac (polls ++ extra) = some (d, waits) := by
  intro polls
  induction polls with
  | nil =>
    intro d waits h
    simp [update_attributes] at h
  | cons all rest ih =>
    intro d waits h
    rw [update_attributes_cons] at h
    cases hl : attributes_lookup mac all with
    | some d0 =>
      rw [hl] at h
      simp only [Option.some.injEq, Prod.mk.injEq] at h
      obtain ⟨hd, hw⟩ := h
      refine ⟨by simp [← hw], ?_, ?_⟩
      · simp [List.takeWhile, hl, ← hw]
      · intro extra
        rw [List.cons_append, update_attributes_cons, hl, hd, hw]
    | none =>
      rw [hl] at h
      cases hr : update_attributes mac rest with
      | none => rw [hr] at h; simp at h
      | some p =>
        obtain ⟨d1, ws1⟩ := p
        rw [hr] at h
        simp only [Option.some.injEq, Prod.mk.injEq] at h
        obtain ⟨hd, hw⟩ := h
        obtain ⟨ihw, ihlen, ihperm⟩ := ih d1 ws1 hr
        refine ⟨?_, ?_, ?_⟩
        · intro w hwmem
          rw [← hw] at hwmem
          rcases List.mem_cons.mp hwmem with h5 | hmem
          · exact h5
          · exact ihw w hmem
        · simp [List.takeWhile, hl, ← hw, ihlen]
        · intro extra
          rw [List.cons_append, update_attributes_cons, hl, ihperm extra, hd]
          simp [← hw]

/-- Helper: full characterization of the state-frame retry loop: every
sleep is 2.5 seconds, one per failed poll before the first success, and
the first success is cached permanently. -/
theorem update_state_frame_spec :
    ∀ (polls : List (Option StateFrame)) (f : StateFrame) (waits : List ℚ),
      update_state_frame polls = some (f, waits) →
      (∀ w ∈ waits, w = (5 / 2 : ℚ)) ∧
      waits.length = (polls.takeWhile Option.isNone).length ∧
      ∀ extra, update_state_frame (polls ++ extra) = some (f, waits) := by
  intro polls
  induction polls with
  | nil =>
    intro f waits h
    simp [update_state_frame] at h
  | cons frame rest ih =>
    intro f waits h
    rw [update_state_frame_cons] at h
    cases frame with
    | some f0 =>
      simp only [Option.some.injEq, Prod.mk.injEq] at h
      obtain ⟨hf, hw⟩ := h
      refine ⟨by simp [← hw], by simp [List.takeWhile, ← hw], ?_⟩
      intro extra
      rw [List.cons_append, update_state_frame_cons, hf, hw]
    | none =>
      cases hr : update_state_frame rest with
      | none => rw [hr] at h; simp at h
      | some p =>
        obtain ⟨f1, ws1⟩ := p
        rw [hr] at h
        simp only [Option.some.injEq, Prod.mk.injEq] at h
        obtain ⟨hf, hw⟩ := h
        obtain ⟨ihw, ihlen, ihperm⟩ := ih f1 ws1 hr
        refine ⟨?_, ?_, ?_⟩
        · intro w hwmem
          rw [← hw] at hwmem
          rcases List.mem_cons.mp hwmem with h5 | hmem
          · exact h5
          · exact ihw w hmem
        · simp [List.takeWhile, ← hw, ihlen]
        · intro extra
          rw [List.cons_append, update_state_frame_cons, ihperm extra, hf]
          simp [← hw]

/-- C7 counterexample: the transition-table synchronizer sleeps 2.5
seconds after a failed poll, not 5. -/
theorem update_state_frame_backoff_counterexample :
    update_state_frame [none, some ⟨[]⟩] = some (⟨[]⟩, [(5 / 2 : ℚ)]) ∧
    (5 / 2 : ℚ) ≠ 5 := by
  constructor
  · rfl
  · norm_num

/-- C7 amended: the attribute synchronizer waits exactly 5 seconds after
every lookup failure and the transition-table synchronizer waits exactly
2.5 seconds after every failed poll; for both, the first successful
fetch caches the value and terminates the retry loop permanently. -/
theorem synchronizer_backoff_and_permanence :
    (∀ mac polls d waits, update_attributes mac polls = some (d, waits) →
       (∀ w ∈ waits, w = (5 : ℚ)) ∧
       waits.length = (polls.takeWhile (fun a => (attributes_lookup mac a).isNone)).length ∧
       ∀ extra, update_attributes mac (polls ++ extra) = some (d, waits)) ∧
    (∀ polls f waits, update_state_frame polls = some (f, waits) →
       (∀ w ∈ waits, w = (5 / 2 : ℚ)) ∧
       waits.length = (polls.takeWhile Option.isNone).length ∧
       ∀ extra, update_state_frame (polls ++ extra) = some (f, waits)) :=
  ⟨update_attributes_spec, update_state_frame_spec⟩

/-- Witness for C7 amended: after one failure and one success, extra
polls leave the cached attributes and the single 5-second sleep as they
are. -/
theorem synchronizer_backoff_and_permanence_witness :
    update_attributes "m" ([none, some [("m", [("Node Number", "2")])]] ++ [none]) =
      some ([("Node Number", "2")], [(5 : ℚ)]) :=
  (synchronizer_backoff_and_permanence.1 "m" [none, some [("m", [("Node Number", "2")])]]
    [("Node Number", "2")] [(5 : ℚ)] rfl).2.2 [none]

/-- C4 counterexample: starting from the constructor defaults, a cycle
with cue state Standby and node state None stores the solid-yellow
indicator; a following cycle with the same four inputs except cue state
Hold (a value other than Go, Standby, Multiple Standbys) leaves the
solid-yellow indicator in place, so the indicator is not Default and
the selection is not a pure function of the four inputs. -/
theorem update_LEDs_not_pure_counterexample :
    GPIOManagement.run_screen
      (update_LEDs_cycle true false (some ⟨"13", "Hold", "Wait", "None", "2", none⟩)
        (update_LEDs_cycle true false (some ⟨"12", "Standby", "Hold", "None", "2", none⟩)
          (GPIOManagement.start "0000FF"))) = Indicator.solidColor "FFFF00" ∧
    Indicator.solidColor "FFFF00" ≠ Indicator.defaultColor := by
  constructor
  · rfl
  · decide

/-- C4 amended: one LED-decision cycle realizes the decision table as a
pure function of connectivity, cue state, node state and the
just-pressed flag for the button light and for five of the six
indicator rows plus the disconnected case; in the remaining row (node
state None with a cue state other than Go, Standby, Multiple Standbys)
the button light is Off but the stored indicator task is left unchanged
from the previous cycle rather than set to Default. -/
theorem update_LEDs_cycle_decision (conn justPressed : Bool) (ns : Option NodeSeries)
    (g : GPIOManagement) :
    GPIOManagement.run_button (update_LEDs_cycle conn justPressed ns g) =
      specButtonLight conn (get_node_series_value ns "Cue State")
        (get_node_series_value ns "Node State") justPressed ∧
    GPIOManagement.run_screen (update_LEDs_cycle conn justPressed ns g) =
      specIndicator conn (get_node_series_value ns "Cue State")
        (get_node_series_value ns "Node State") g.storedIndicator := by
  rcases g with ⟨gc, gst, gsa, gbt, gba⟩
  cases conn
  · exact ⟨rfl, rfl⟩
  · simp only [update_LEDs_cycle, specButtonLight, specIndicator, GPIOManagement.connected,
      GPIOManagement.button_state, GPIOManagement.default_screen, GPIOManagement.go,
      GPIOManagement.blink_button, GPIOManagement.standby, GPIOManagement.multiple_standbys,
      GPIOManagement.solid_screen, GPIOManagement.blink_screen, GPIOManagement.run_button,
      GPIOManagement.run_screen, GPIOManagement.storedIndicator]
    split_ifs <;> simp_all

/-- Unfolding equation of the multi-cycle runner on a cons cell. -/
theorem update_node_series_run_cons (sf : StateFrame) (attrs : List (String × String))
    (s : NodeMachineState) (press : Bool) (cue : Option CueSeries)
    (rest : List (Bool × Option CueSeries)) :
    update_node_series_run sf attrs s ((press, cue) :: rest) =
      (match update_node_series_cycle sf attrs cue
          { s with changeState := s.changeState || press } with
       | Except.error e => Except.error e
       | Except.ok r =>
         match update_node_series_run sf attrs r.state rest with
         | Except.error e => Except.error e
         | Except.ok (s2, bs) => Except.ok (s2, r.branch :: bs)) := rfl

/-- Helper: when a cycle takes the final-phase branch, both flags held
before the cycle, the initialState flag is false after it, and the node
state was advanced to the Final Node State of the cue state and
published. -/
theorem update_node_series_finalPhase_inv (sf : StateFrame) (attrs : List (String × String))
    (cue : Option CueSeries) (s : NodeMachineState) (r : CycleResult)
    (h : update_node_series_cycle sf attrs cue s = Except.ok r)
    (hb : r.branch = Branch.finalPhase) :
    s.changeState = true ∧ s.initialState = true ∧ r.state.initialState = false ∧
    ∃ ns0 finState, s.nodeSeries = some ns0 ∧ sf.atFinal ns0.cueState = some finState ∧
      r.state.nodeSeries = some ⟨ns0.cueNumber, ns0.cueState, ns0.action, finState,
        ns0.nodeNumber, s.oldServerTime⟩ ∧
      r.published = some ⟨ns0.cueNumber, ns0.cueState, ns0.action, finState,
        ns0.nodeNumber, s.oldServerTime⟩ := by
  cases cue with
  | none =>
    simp only [update_node_series_cycle] at h
    injection h with h2
    rw [← h2] at hb
    simp at hb
  | some c =>
    simp only [update_node_series_cycle] at h
    split at h
    · split at h
      · exact absurd h (by simp)
      · injection h with h2
        rw [← h2] at hb
        simp at hb
    · split at h
      · rename_i hflags
        split at h
        · injection h with h2
          rw [← h2] at hb
          simp at hb
        · rename_i ns0 hns0
          split at h
          · exact absurd h (by simp)
          · rename_i finState hfin
            injection h with h2
            rw [← h2]
            exact ⟨hflags.1, hflags.2, rfl, ns0, finState, hns0, hfin, rfl, rfl⟩
      · injection h with h2
        rw [← h2] at hb
        simp at hb

/-- Helper: a cycle that does not take the new-cue branch and starts
with the initialState flag down keeps it down and cannot take the
final-phase branch. -/
theorem update_node_series_cycle_keeps_false (sf : StateFrame)
    (attrs : List (String × String)) (cue : Option CueSeries) (s : NodeMachineState)
    (r : CycleResult) (h : update_node_series_cycle sf attrs cue s = Except.ok r)
    (hinit : s.initialState = false) (hb : r.branch ≠ Branch.newCue) :
    r.state.initialState = false ∧ r.branch ≠ Branch.finalPhase := by
  cases cue with
  | none =>
    simp only [update_node_series_cycle] at h
    injection h with h2
    rw [← h2]
    exact ⟨hinit, by simp⟩
  | some c =>
    simp only [update_node_series_cycle] at h
    split at h
    · split at h
      · exact absurd h (by simp)
      · injection h with h2
        rw [← h2] at hb
        simp at hb
    · split at h
      · rename_i hflags
        rw [hflags.2] at hinit
        exact absurd hinit (by decide)
      · injection h with h2
        rw [← h2]
        exact ⟨hinit, by simp⟩

/-- Helper: once the initialState flag is down, a run in which the
new-cue branch never fires records no final-phase firing at all. -/
theorem update_node_series_run_finalCount_zero (sf : StateFrame)
    (attrs : List (String × String)) :
    ∀ (inputs : List (Bool × Option CueSeries)) (s s2 : NodeMachineState)
      (bs : List Branch),
      update_node_series_run sf attrs s inputs = Except.ok (s2, bs) →
      s.initialState = false → Branch.newCue ∉ bs → finalCount bs = 0 := by
  intro inputs
  induction inputs with
  | nil =>
    intro s s2 bs h hinit hnb
    injection h with h2
    injection h2 with hs hbs
    rw [← hbs]
    rfl
  | cons pc rest ih =>
    obtain ⟨press, cue⟩ := pc
    intro s s2 bs h hinit hnb
    rw [update_node_series_run_cons] at h
    split at h
    · exact absurd h (by simp)
    · rename_i r hc
      split at h
      · exact absurd h (by simp)
      · rename_i s3 bs1 hrun
        injection h with h2
        injection h2 with hs hbs
        rw [← hbs] at hnb
        have hb1 : r.branch ≠ Branch.newCue := fun he => hnb (he ▸ List.mem_cons_self _ _)
        have hkeep := update_node_series_cycle_keeps_false sf attrs cue _ r hc hinit hb1
        have htail : finalCount bs1 = 0 :=
          ih r.state s3 bs1 hrun hkeep.1 (fun hm => hnb (List.mem_cons_of_mem _ hm))
        rw [← hbs]
        simp only [finalCount, List.countP_cons] at htail ⊢
        rw [htail]
        simp [hkeep.2]

/-- C3: final-phase rule. The node state is advanced to the Final Node
State only in a cycle where both the changeState and the initialState
flags hold, and that cycle lowers the initialState flag at once; hence
in any run of cycles in which no new-cue update fires (with the button
task free to raise changeState before every cycle), the final-phase
branch fires at most once. -/
theorem final_phase_rule :
    (∀ (sf : StateFrame) (attrs : List (String × String)) (cue : Option CueSeries)
       (s : NodeMachineState) (r : CycleResult),
       update_node_series_cycle sf attrs cue s = Except.ok r →
       r.branch = Branch.finalPhase →
       s.changeState = true ∧ s.initialState = true ∧ r.state.initialState = false) ∧
    (∀ (sf : StateFrame) (attrs : List (String × String))
       (inputs : List (Bool × Option CueSeries)) (s s2 : NodeMachineState)
       (bs : List Branch),
       update_node_series_run sf attrs s inputs = Except.ok (s2, bs) →
       Branch.newCue ∉ bs → finalCount bs ≤ 1) := by
  constructor
  · intro sf attrs cue s r h hb
    obtain ⟨h1, h2, h3, _⟩ := update_node_series_finalPhase_inv sf attrs cue s r h hb
    exact ⟨h1, h2, h3⟩
  · intro sf attrs inputs
    induction inputs with
    | nil =>
      intro s s2 bs h hnb
      injection h with h2
      injection h2 with hs hbs
      rw [← hbs]
      decide
    | cons pc rest ih =>
      obtain ⟨press, cue⟩ := pc
      intro s s2 bs h hnb
      rw [update_node_series_run_cons] at h
      split at h
      · exact absurd h (by simp)
      · rename_i r hc
        split at h
        · exact absurd h (by simp)
        · rename_i s3 bs1 hrun
          injection h with h2
          injection h2 with hs hbs
          rw [← hbs] at hnb
          have hnb1 : Branch.newCue ∉ bs1 := fun hm => hnb (List.mem_cons_of_mem _ hm)
          rw [← hbs]
          by_cases hfin : r.branch = Branch.finalPhase
          · have hinv := update_node_series_finalPhase_inv sf attrs cue _ r hc hfin
            have htail : finalCount bs1 = 0 :=
              update_node_series_run_finalCount_zero sf attrs rest r.state s3 bs1 hrun
                hinv.2.2.1 hnb1
            simp only [finalCount, List.countP_cons] at htail ⊢
            rw [htail]
            simp [hfin]
          · have htail : finalCount bs1 ≤ 1 := ih r.state s3 bs1 hrun hnb1
            simp only [finalCount, List.countP_cons] at htail ⊢
            simpa [hfin] using htail

/-- Witness for C3: a concrete run where a button press drives exactly
one final-phase transition and a second identical cycle is a no-op. -/
theorem final_phase_rule_witness :
    ((⟨some ⟨"12", "Standby", "Hold", "None", "2", some 7⟩, true, true, false, some 7⟩ :
        NodeMachineState).changeState = true ∧
      (⟨some ⟨"12", "Standby", "Hold", "None", "2", some 7⟩, true, true, false, some 7⟩ :
        NodeMachineState).initialState = true ∧
      (⟨⟨some ⟨"12", "Standby", "Hold", "Go", "2", some 7⟩, true, false, false, some 7⟩,
        Branch.finalPhase,
        some ⟨"12", "Standby", "Hold", "Go", "2", some 7⟩⟩ :
        CycleResult).state.initialState = false) ∧
    finalCount [Branch.finalPhase, Branch.noop] ≤ 1 :=
  ⟨final_phase_rule.1 ⟨[("Standby", "None", "Go")]⟩ [("Node Number", "2")]
      (some ⟨"12", "Standby", "Hold"⟩)
      ⟨some ⟨"12", "Standby", "Hold", "None", "2", some 7⟩, true, true, false, some 7⟩
      ⟨⟨some ⟨"12", "Standby", "Hold", "Go", "2", some 7⟩, true, false, false, some 7⟩,
        Branch.finalPhase, some ⟨"12", "Standby", "Hold", "Go", "2", some 7⟩⟩
      rfl rfl,
   final_phase_rule.2 ⟨[("Standby", "None", "Go")]⟩ [("Node Number", "2")]
      [(true, some ⟨"12", "Standby", "Hold"⟩), (true, some ⟨"12", "Standby", "Hold"⟩)]
      ⟨some ⟨"12", "Standby", "Hold", "None", "2", some 7⟩, false, true, false, some 7⟩
      ⟨some ⟨"12", "Standby", "Hold", "Go", "2", some 7⟩, true, false, false, some 7⟩
      [Branch.finalPhase, Branch.noop] rfl (by decide)⟩

end WCSNode
